import Mathlib

/-!
# Verification of the pendulum swing-up / cart-pole balancing notebooks

Shallow embedding of the two Jupyter notebooks of the repository
(learning-pendulum-swingup).  Numeric scalars are modelled by `ℚ` (the
float literals appearing in the notebooks denote the corresponding decimal
rationals; comparisons and divisions by powers of two used below are exact
in IEEE double precision, so the rational model agrees with the float
computation wherever a claim depends on it).  External collaborators
(the gymnasium environment, the pybullet physics engine, the statsmodels
OLS solver, the python-control `dlqr` solver, the file system) are
modelled as opaque parameters, exactly as the spec treats them.
-/

namespace PendulumSwingup

/-- An observation of the cart-pole system: the 4-tuple
`(Cart Position, Cart Velocity, Pole Angle, Pole Angular Velocity)`,
indexed in the notebook as `s[0], s[1], s[2], s[3]`. -/
structure Obs where
  x : ℚ
  x_dot : ℚ
  theta : ℚ
  theta_dot : ℚ
deriving DecidableEq

/-- The 5-tuple returned by `gymnasium`'s `env.step`:
`(next_observation, reward, terminated, truncated, info)`; the `info`
dictionary is never inspected by the notebook and is omitted. -/
structure StepResult where
  obs : Obs
  reward : ℚ
  terminated : Bool
  truncated : Bool

/-- An opaque gymnasium environment over an internal (simulator) state `σ`.
`reset` returns the fresh observation, `step` consumes an action (a natural
number, `0` or `1` for CartPole) and returns the step 5-tuple.  Both thread
the simulator state explicitly. -/
structure GymEnv (σ : Type) where
  reset : σ → σ × Obs
  step : σ → ℕ → σ × StepResult

/-- One transition row of the dataframe built by
`generate_sample_of_system_dynamics`: the pre-step observation, the
recentred action column `2u - 1`, and the selected components of the
post-step observation. -/
structure Row where
  x : ℚ
  x_dot : ℚ
  theta : ℚ
  theta_dot : ℚ
  u : ℤ
  evolution_x : ℚ
  evolution_x_dot : ℚ
  evolution_theta_dot : ℚ
deriving DecidableEq

/-- The dictionary appended by the sampling loop for pre-step observation
`s`, raw action `a ∈ {0,1}` and post-step observation `next_s`
(`'2u - 1': 2 * a - 1`). -/
def mkRow (s : Obs) (a : ℕ) (next_s : Obs) : Row :=
  { x := s.x, x_dot := s.x_dot, theta := s.theta, theta_dot := s.theta_dot,
    u := 2 * (a : ℤ) - 1,
    evolution_x := next_s.x, evolution_x_dot := next_s.x_dot,
    evolution_theta_dot := next_s.theta_dot }

/-- The body of the sampling loop of `generate_sample_of_system_dynamics`.
`n` is the number of iterations left, `i` the index of the current
iteration (used to consume the random action stream `acts`, which models
the successive draws of `np.random.randint(0, 2)`), `st` the simulator
state and `s` the current pre-step observation.  On a terminated episode
(`d` in the source) the environment is reset, otherwise `s` becomes
`next_s`; the `truncated` flag returned by `env.step` is discarded by the
source (`next_s, _, d, _, _ = env.step(a)`). -/
def genAux {σ : Type} (env : GymEnv σ) (acts : ℕ → Fin 2) :
    ℕ → ℕ → σ → Obs → List Row
  | 0, _, _, _ => []
  | n + 1, i, st, s =>
    let a := (acts i).val
    let r := env.step st a
    let row := mkRow s a r.2.obs
    if r.2.terminated then
      row :: genAux env acts n (i + 1) (env.reset r.1).1 (env.reset r.1).2
    else
      row :: genAux env acts n (i + 1) r.1 r.2.obs

/-- `generate_sample_of_system_dynamics(env, nb_samples)` from the
notebooks: reset once, then run the sampling loop `nb_samples` times and
return the collected rows (the dataframe, in row order). -/
def generate_sample_of_system_dynamics {σ : Type} (env : GymEnv σ)
    (acts : ℕ → Fin 2) (st0 : σ) (nb_samples : ℕ) : List Row :=
  genAux env acts nb_samples 0 (env.reset st0).1 (env.reset st0).2

/-- Python exceptions that the modelled code can raise. -/
inductive PyError where
  | typeError
  | indexError
  | fileNotFoundError
deriving DecidableEq

/-- The opaque pybullet physics behind `EnvRealistic`: `physStep φ a`
is the physics state after `EnvRealistic.step`'s motion
(`move_end_effector_along_trajectory` towards the target computed from the
action `a ∈ {-1, 1}`), `observe` is `get_state`, and `physReset` is the
robot motion performed by `EnvRealistic.reset`
(`reset_to_initial_state` followed by moving to `initial_pos`). -/
structure Phys (φ : Type) where
  physStep : φ → ℤ → φ
  observe : φ → Obs
  physReset : φ → φ

/-- `EnvRealistic.action_space = [-1, 1]`. -/
def action_space : List ℤ := [-1, 1]

/-- `EnvRealistic.TIME_HORIZON = 1000`. -/
def TIME_HORIZON : ℕ := 1000

/-- The IEEE double-precision value of `np.pi`, namely
`884279719003555 / 2^48`, as an exact rational.  The comparison
`np.abs(theta) > np.pi / 16` performed by `EnvRealistic.step` is exact on
these values (dividing a double by 16 only shifts the exponent), so the
rational model coincides with the float computation. -/
def npPi : ℚ := 884279719003555 / 281474976710656

/-- The runtime state of an `EnvRealistic` object: the pybullet physics
state together with the `self.timestep` counter. -/
def RState (φ : Type) : Type := φ × ℕ

/-- `EnvRealistic.step(action)`: move the end effector, read the new
observation, increment `self.timestep`, then set `dead` exactly when
`np.abs(theta) > np.pi / 16` and `truncated` exactly when the incremented
counter equals `TIME_HORIZON`.  Returns `(new runtime state,
(state, dead, truncated))`; the first component models the mutation of
`self`, the second the python return value. -/
def EnvRealistic.step {φ : Type} (P : Phys φ) (st : RState φ) (action : ℤ) :
    RState φ × (Obs × Bool × Bool) :=
  let p' := P.physStep st.1 action
  let o := P.observe p'
  let t := st.2 + 1
  let dead := decide (|o.theta| > npPi / 16)
  let truncated := decide (t = TIME_HORIZON)
  ((p', t), (o, dead, truncated))

/-- `EnvRealistic.reset()`: zero the timestep counter and move the robot
back to the start.  The python method body has **no** `return` statement
(although its docstring says "Returns state"), so the python value of the
call is `None`; the second component below is that value. -/
def EnvRealistic.reset {φ : Type} (P : Phys φ) (st : RState φ) :
    RState φ × Option Obs :=
  ((P.physReset st.1, 0), none)

/-- One row of the dataframe built by
`generate_sample_of_system_dynamics_realistic` (here the action column is
`'u': a` with `a ∈ {-1, 1}` drawn from `action_space`). -/
structure RowR where
  x : ℚ
  x_dot : ℚ
  theta : ℚ
  theta_dot : ℚ
  u : ℤ
  evolution_x : ℚ
  evolution_x_dot : ℚ
  evolution_theta_dot : ℚ
deriving DecidableEq

/-- The dictionary appended by the realistic sampling loop. -/
def mkRowR (s : Obs) (a : ℤ) (next_s : Obs) : RowR :=
  { x := s.x, x_dot := s.x_dot, theta := s.theta, theta_dot := s.theta_dot,
    u := a,
    evolution_x := next_s.x, evolution_x_dot := next_s.x_dot,
    evolution_theta_dot := next_s.theta_dot }

/-- The loop body of `generate_sample_of_system_dynamics_realistic`,
translated exactly as written in the source.  `s` is the python variable
`s`, which is `None` right after `s = env.reset()` (see
`EnvRealistic.reset`); building the row dictionary evaluates `s[0]`,
which raises `TypeError` when `s` is `None`.  The source's
`return pd.DataFrame(samples)` statement is indented **inside** the `for`
loop, so the loop body ends the function on its first completed
iteration; when `nb_samples = 0` the loop never runs and the function
falls off its end, returning python `None` (modelled by `Except.ok none`).
The loop header wraps the range in `tqdm`, which is modelled as the
identity iteration it is intended to be (`tqdm` is in fact never imported
by the notebook, so at runtime the loop header itself would already raise
`NameError`). -/
def genRealAux {φ : Type} (P : Phys φ) (acts : ℕ → Fin 2) :
    ℕ → ℕ → RState φ → Option Obs → List RowR →
    Except PyError (Option (List RowR))
  | 0, _, _, _, _ => Except.ok none
  | _ + 1, i, st, s, samples =>
    let a := action_space.get (acts i)
    let r := EnvRealistic.step P st a
    match s with
    | none => Except.error PyError.typeError
    | some sv =>
      let samples1 := samples ++ [mkRowR sv a r.2.1]
      let _s1 : Option Obs :=
        if r.2.2.1 || r.2.2.2 then (EnvRealistic.reset P r.1).2 else some r.2.1
      Except.ok (some samples1)

/-- `generate_sample_of_system_dynamics_realistic(env, nb_samples)`:
`s = env.reset()` (which yields `None`), then the sampling loop. -/
def generate_sample_of_system_dynamics_realistic {φ : Type} (P : Phys φ)
    (acts : ℕ → Fin 2) (st0 : RState φ) (nb_samples : ℕ) :
    Except PyError (Option (List RowR)) :=
  let r0 := EnvRealistic.reset P st0
  genRealAux P acts nb_samples 0 r0.1 r0.2 []

/-! ## State threading of the gym sampling loop -/

/-- The update of `(simulator state, s)` performed by one iteration of the
sampling loop consuming action `a`: on a terminated step the environment
is reset and `s` becomes the fresh reset observation, otherwise `s`
becomes `next_s`. -/
def stepOnce {σ : Type} (env : GymEnv σ) (a : Fin 2) (p : σ × Obs) : σ × Obs :=
  let r := env.step p.1 a.val
  if r.2.terminated then env.reset r.1 else (r.1, r.2.obs)

/-- `j` iterations of `stepOnce`, where the first one consumes action
`acts i` (actions are consumed in stream order). -/
def stepIter {σ : Type} (env : GymEnv σ) (acts : ℕ → Fin 2) :
    ℕ → ℕ → σ × Obs → σ × Obs
  | _, 0, p => p
  | i, j + 1, p => stepIter env acts (i + 1) j (stepOnce env (acts i) p)

/-- The pre-step observation recorded in a row (its `x`, `x_dot`,
`theta`, `theta_dot` columns). -/
def Row.pre (r : Row) : Obs :=
  { x := r.x, x_dot := r.x_dot, theta := r.theta, theta_dot := r.theta_dot }

/-! ## Linear model fit (`small_angle_samples`, per-output OLS) -/

/-- `small_angle_samples = samples[np.abs(samples["theta"]) < 0.05]`:
the rows whose recorded pre-step angle lies in the linearization
neighborhood. -/
def small_angle_samples (samples : List Row) : List Row :=
  samples.filter (fun r => decide (|r.theta| < 0.05))

/-- The predictor 5-vector of a row, in the order used by the notebook:
`['x', 'x_dot', 'theta', 'theta_dot', '2u - 1']`. -/
def predictorRow (r : Row) : Fin 5 → ℚ :=
  ![r.x, r.x_dot, r.theta, r.theta_dot, (r.u : ℚ)]

/-- `predictors = small_angle_samples[['x', 'x_dot', 'theta', 'theta_dot',
'2u - 1']]`: the design matrix, one predictor 5-vector per filtered row. -/
def predictors (samples : List Row) : List (Fin 5 → ℚ) :=
  (small_angle_samples samples).map predictorRow

/-- The three predicted outputs, in the order of the notebook's
`outcomes` list. -/
inductive Outcome where
  | evolution_x_dot
  | evolution_theta_dot
  | evolution_x
deriving DecidableEq

/-- The value of an outcome column in a row. -/
def outcomeValue : Outcome → Row → ℚ
  | Outcome.evolution_x_dot, r => r.evolution_x_dot
  | Outcome.evolution_theta_dot, r => r.evolution_theta_dot
  | Outcome.evolution_x, r => r.evolution_x

/-- `small_angle_samples[o]`: the response column fed to `OLS` for
outcome `o`. -/
def outcomeColumn (o : Outcome) (samples : List Row) : List ℚ :=
  (small_angle_samples samples).map (outcomeValue o)

/-- An opaque ordinary-least-squares solver, the model of
`OLS(y, X).fit().params` from statsmodels: it maps a design matrix
(list of predictor 5-vectors) and a response column to a coefficient
5-vector. -/
def OlsSolver : Type := List (Fin 5 → ℚ) → List ℚ → (Fin 5 → ℚ)

/-- The body of the fitting loop `for o in outcomes: model =
OLS(small_angle_samples[o], predictors); fit = model.fit()`: the fitted
coefficient vector for outcome `o`. -/
def fitParams (ols : OlsSolver) (samples : List Row) (o : Outcome) :
    Fin 5 → ℚ :=
  ols (predictors samples) (outcomeColumn o samples)

/-- Dot product of a predictor 5-vector with a coefficient 5-vector. -/
def dot5 (v w : Fin 5 → ℚ) : ℚ :=
  ∑ j : Fin 5, v j * w j

/-- Residual sum of squares of coefficient vector `β` on design matrix
`X` and response column `y`. -/
def ssr (X : List (Fin 5 → ℚ)) (y : List ℚ) (β : Fin 5 → ℚ) : ℚ :=
  ((X.zip y).map (fun p => (p.2 - dot5 p.1 β) ^ 2)).sum

/-- `β` satisfies the normal equations of the least-squares problem
`(X, y)`: every predictor is orthogonal to the residuals.  This is the
defining property of the coefficient vector computed by an OLS solver. -/
def NormalEqs (X : List (Fin 5 → ℚ)) (y : List ℚ) (β : Fin 5 → ℚ) : Prop :=
  ∀ j : Fin 5, ((X.zip y).map (fun p => p.1 j * (p.2 - dot5 p.1 β))).sum = 0

/-- `β` minimizes the residual sum of squares of `(X, y)`. -/
def IsLSMin (X : List (Fin 5 → ℚ)) (y : List ℚ) (β : Fin 5 → ℚ) : Prop :=
  ∀ β' : Fin 5 → ℚ, ssr X y β ≤ ssr X y β'

/-! ## Controller synthesis (hand-assembled system, dlqr) -/

/-- `dT = 0.02`. -/
def dT : ℚ := 0.02

/-- The hand-assembled state matrix `A` of the final notebook cell. -/
def A : Matrix (Fin 4) (Fin 4) ℚ :=
  !![1, dT, 0, 0;
     0, 1, -0.014107, 0;
     0, 0, 1, dT;
     0.000031, 0.000019, 0.315099, 0.999998]

/-- The hand-assembled input matrix `B`. -/
def B : Matrix (Fin 4) (Fin 1) ℚ :=
  !![0; 0.195111; 0; -0.292548]

/-- `Q = np.diag([125, 50, 1200, 25])`. -/
def Q : Matrix (Fin 4) (Fin 4) ℚ :=
  Matrix.diagonal ![125, 50, 1200, 25]

/-- `R = np.diag([1.5])`. -/
def R : Matrix (Fin 1) (Fin 1) ℚ :=
  Matrix.diagonal ![1.5]

/-- An opaque discrete-time LQR solver, the model of `control.dlqr`
restricted to the gain output `K` (the `S` and `E` outputs are unused by
the notebook).  Its type records the conforming dimensions of the call:
`A : 4×4`, `B : 4×1`, `Q : 4×4`, `R : 1×1` give a `1×4` gain. -/
def DlqrSolver : Type :=
  Matrix (Fin 4) (Fin 4) ℚ → Matrix (Fin 4) (Fin 1) ℚ →
  Matrix (Fin 4) (Fin 4) ℚ → Matrix (Fin 1) (Fin 1) ℚ →
  Matrix (Fin 1) (Fin 4) ℚ

/-- The matrices passed to `dlqr` by the controller-synthesis cell, as a
function of everything data-dependent that precedes that cell (the
collected samples and the fitted regression coefficients).  The source
cell references neither: it builds `A`, `B`, `Q`, `R` from literals. -/
def lqrInput (samples : List Row) (fits : Outcome → (Fin 5 → ℚ)) :
    Matrix (Fin 4) (Fin 4) ℚ × Matrix (Fin 4) (Fin 1) ℚ ×
    Matrix (Fin 4) (Fin 4) ℚ × Matrix (Fin 1) (Fin 1) ℚ :=
  (A, B, Q, R)

/-- `K, S, E = dlqr(A, B, Q, R)`: the feedback gain produced by
controller synthesis, again as a function of samples and fits. -/
def controllerGain (dlqr : DlqrSolver) (samples : List Row)
    (fits : Outcome → (Fin 5 → ℚ)) : Matrix (Fin 1) (Fin 4) ℚ :=
  dlqr (lqrInput samples fits).1 (lqrInput samples fits).2.1
    (lqrInput samples fits).2.2.1 (lqrInput samples fits).2.2.2

/-! ## URDF editing (`addpendulum_urdf`) -/

/-- The file system seen by `addpendulum_urdf`: a partial map from paths
to file contents, a file's content being its list of lines as returned by
`readlines()` (so every line except possibly the last carries its
trailing newline). -/
def FS : Type := String → Option (List String)

/-- The whitespace characters removed by python's `str.strip()`. -/
def pyWhitespace (c : Char) : Bool :=
  c = ' ' || c = '\t' || c = '\n' || c = '\r' || c = '\x0b' || c = '\x0c'

/-- Python's `str.strip()` with no argument: remove leading and trailing
whitespace (implemented over the character list of the string). -/
def pyStrip (s : String) : String :=
  String.mk (((s.data.dropWhile pyWhitespace).reverse.dropWhile
    pyWhitespace).reverse)

/-- The `while urdf_data and urdf_data[-1].strip() == "": urdf_data.pop()`
loop: drop blank lines from the end of the file. -/
def dropTrailingBlanks (l : List String) : List String :=
  (l.reverse.dropWhile (fun s => decide (pyStrip s = ""))).reverse

/-- The triple-quoted `pendulum_urdf` literal appended to the URDF data
(one single element of the line list, exactly as in the source). -/
def pendulum_urdf : String :=
  "\n" ++
  "  <!-- Pendulum Link (Thin cylinder attached to link_6) -->\n" ++
  "  <link name=\"pendulum_link\">\n" ++
  "    <inertial>\n" ++
  "      <origin xyz=\"0 0 -0.125\" rpy=\"0 0 0\" />\n" ++
  "      <mass value=\"0.005\" />\n" ++
  "      <inertia ixx=\"0.0001\" ixy=\"0\" ixz=\"0\" iyy=\"0.0000\" iyz=\"0\" izz=\"0.0001\" /> <!-- ixx =izz = m * l **2 /3, rest is 0 (source wiki)  -->\n" ++
  "    </inertial>\n" ++
  "    <visual>\n" ++
  "      <origin xyz=\"0 0 -0.125\" rpy=\"0 0 0\" />\n" ++
  "      <geometry>\n" ++
  "      <cylinder length=\"0.25\" radius=\"0.0025\"/> <!-- Thin cylinder, length 0.25m, radius 2.5mm -->\n" ++
  "      </geometry>\n" ++
  "      <material name=\"\">\n" ++
  "        <color rgba=\"0.792156862745098 0.819607843137255 0.933333333333333 1\" />\n" ++
  "      </material>\n" ++
  "    </visual>\n" ++
  "    <collision>\n" ++
  "      <origin xyz=\"0 0 -0.125\" rpy=\"0 0 0\" /> \n" ++
  "      <geometry>\n" ++
  "      <cylinder length=\"0.25\" radius=\"0.0025\"/> <!-- Thin cylinder, length 0.25m, radius 2.5mm -->\n" ++
  "      </geometry>\n" ++
  "    </collision>\n" ++
  "  </link>\n" ++
  "\n" ++
  "  <!-- Pendulum Mass at the end of the pendulum_link -->\n" ++
  "  <link name=\"pendulum_mass\">\n" ++
  "    <inertial>\n" ++
  "      <origin xyz=\"0 0 -0.03\" rpy=\"0 0 0\" />\n" ++
  "      <mass value=\"0.1\" /> <!-- Mass m at the end of 100g -->\n" ++
  "      <inertia ixx=\"0.000036\" ixy=\"0\" ixz=\"0\" iyy=\"0.000036\" iyz=\"0\" izz=\"0.000036\" /> <!-- ixx = iyy=izz = 2 *m * r **2 /5 , rest is 0 (source wiki)   -->\n" ++
  "    </inertial>\n" ++
  "    <visual>\n" ++
  "      <origin xyz=\"0 0 -0.03\" rpy=\"0 0 0\" />\n" ++
  "      <geometry>\n" ++
  "        <sphere radius =\"0.03\" /> <!-- Small sphere representing the mass, radius of 3cm -->\n" ++
  "      </geometry>\n" ++
  "      <material name=\"\">\n" ++
  "        <color rgba=\"0.792156862745098 0.819607843137255 0.933333333333333 1\" />\n" ++
  "      </material>\n" ++
  "    </visual>\n" ++
  "    <collision>\n" ++
  "      <origin xyz=\"0 0 -0.03\" rpy=\"0 0 0\" />\n" ++
  "      <geometry>\n" ++
  "        <sphere radius=\"0.03\" />\n" ++
  "      </geometry>\n" ++
  "    </collision>\n" ++
  "  </link>\n" ++
  "\n" ++
  "  <!-- Pendulum Revolute Joint (connects pendulum_link to link_6) -->\n" ++
  "  <joint name=\"pendulum_joint\" type=\"revolute\">\n" ++
  "    <parent link=\"link_6\" /> <!-- Attach to link_6 -->\n" ++
  "    <child link=\"pendulum_link\" />\n" ++
  "    <origin xyz=\"0 0 0\" rpy=\"0 3.1416 0\" /> <!-- Positioning pendulum at link_6's end -->\n" ++
  "    <axis xyz=\"0 1 0\" /> <!-- Swinging along Y-axis -->\n" ++
  "    <limit lower=\"- 6.30\" upper=\"6.30\" effort=\"0\" velocity=\"0\" /> <!-- Passive joint with zero effort -->\n" ++
  "    <dynamics damping=\"0.01\" friction=\"0.01\" />\n" ++
  "  </joint>\n" ++
  "\n" ++
  "  <!-- Pendulum Mass Joint (fixes mass to the end of the pendulum) -->\n" ++
  "  <joint name=\"pendulum_mass_joint\" type=\"fixed\">\n" ++
  "    <parent link=\"pendulum_link\" />\n" ++
  "    <child link=\"pendulum_mass\" />\n" ++
  "    <origin xyz=\"0 0 -0.25\" rpy=\"0 0 0\" /> <!-- Attach mass at the tip of pendulum -->\n" ++
  "  </joint>\n" ++
  "  "

/-- `addpendulum_urdf(urdf_file_path, save_to_path)`.  Reads the file at
`urdf_file_path` (a missing file makes `open` raise, modelled by
`fileNotFoundError`), strips trailing blank lines, inspects the last line
(`urdf_data[-1]` raises `IndexError` on an empty list), drops a closing
`</robot>` tag, appends the pendulum snippet and a fresh closing tag, and
writes the result to `save_to_path` — the only write the function
performs; the source file is opened for reading only.
There is no `try`/`except` anywhere in the function, so every raised
exception escapes to the caller, which the `Except` result models: on an
error the returned file system is unchanged and no output file is
written. -/
def addpendulum_urdf (fs : FS) (urdf_file_path save_to_path : String) :
    Except PyError FS :=
  match fs urdf_file_path with
  | none => Except.error PyError.fileNotFoundError
  | some urdf_data =>
    let l1 := dropTrailingBlanks urdf_data
    match l1.getLast? with
    | none => Except.error PyError.indexError
    | some last =>
      let l2 := if pyStrip last = "</robot>" then l1.dropLast else l1
      let l3 := (l2 ++ [pendulum_urdf]) ++ ["</robot>\n"]
      Except.ok (fun r => if r = save_to_path then some l3 else fs r)

/-! ## PD joint control (`control_to_desired_configuration`) -/

/-- `pd_control(q_desired, v_desired, q_measured, v_measured, Kp, Kd)`:
elementwise `Kp * (q_desired - q_measured) + Kd * (v_desired - v_measured)`. -/
def pd_control {nq : ℕ} (q_desired v_desired q_measured v_measured Kp Kd :
    Fin nq → ℚ) : Fin nq → ℚ :=
  fun i => Kp i * (q_desired i - q_measured i) +
    Kd i * (v_desired i - v_measured i)

/-- `np.clip(x, lo, hi) = min(max(x, lo), hi)`. -/
def np_clip (x lo hi : ℚ) : ℚ := min (max x lo) hi

/-- The control loop of `control_to_desired_configuration`, returning the
list of per-joint force vectors passed to
`pybullet.setJointMotorControl2(..., controlMode=TORQUE_CONTROL, ...)`,
one vector per executed iteration.  `measure` is the opaque
`pybullet.getJointStates` oracle giving the measured positions and
velocities at each loop index; when both maximal errors fall below `eps`
the function returns without applying any further torque. -/
def ctdcAux {nq : ℕ} (measure : ℕ → (Fin nq → ℚ) × (Fin nq → ℚ))
    (q_desired v_desired Kp Kd : Fin nq → ℚ) (eps : ℚ) :
    ℕ → ℕ → List (Fin nq → ℚ)
  | 0, _ => []
  | n + 1, step =>
    let q_measured := (measure step).1
    let v_measured := (measure step).2
    if (∀ i, |q_measured i - q_desired i| < eps) ∧
        (∀ i, |v_measured i - v_desired i| < eps) then
      []
    else
      let tau := fun i => np_clip
        (pd_control q_desired v_desired q_measured v_measured Kp Kd i)
        (-50) 50
      tau :: ctdcAux measure q_desired v_desired Kp Kd eps n (step + 1)

/-- `control_to_desired_configuration(q_desired, v_desired, eps=1e-6)`
with its gains `Kp = 20 * np.ones((nq,))`, `Kd = 0.05 * Kp` and its fixed
`for step in range(1000)` iteration budget. -/
def control_to_desired_configuration {nq : ℕ}
    (measure : ℕ → (Fin nq → ℚ) × (Fin nq → ℚ))
    (q_desired v_desired : Fin nq → ℚ) (eps : ℚ) : List (Fin nq → ℚ) :=
  ctdcAux measure q_desired v_desired (fun _ => 20)
    (fun i => 0.05 * (fun _ => (20 : ℚ)) i) eps 1000 0

/-! ## Concrete fixtures used by the witness theorems -/

/-- A concrete gymnasium environment over internal state `ℕ`: every step
taken from internal state `0` terminates the episode, and resetting
returns to internal state `0` with the zero observation. -/
def envW : GymEnv ℕ where
  reset := fun _ => (0, { x := 0, x_dot := 0, theta := 0, theta_dot := 0 })
  step := fun st _ =>
    (st + 1,
      { obs := { x := (st : ℚ) + 1, x_dot := 0, theta := 0, theta_dot := 0 },
        reward := 1, terminated := st == 0, truncated := false })

/-- A constant action stream. -/
def actsW : ℕ → Fin 2 := fun _ => 0

/-- A degenerate OLS solver returning the zero coefficient vector; on an
empty design matrix it satisfies the normal equations of every response
column. -/
def olsZero : OlsSolver := fun _ _ => fun _ => 0

/-- A transition row far outside the linearization neighborhood
(`theta = 1`). -/
def rowFarW : Row :=
  { x := 0, x_dot := 0, theta := 1, theta_dot := 0, u := 1,
    evolution_x := 0, evolution_x_dot := 0, evolution_theta_dot := 0 }

/-- A file system holding one empty URDF file. -/
def fsEmptyW : FS := fun r => if r = "robot.urdf" then some [] else none

/-- A file system holding one URDF file whose single line is the closing
tag. -/
def fsRobotW : FS := fun r => if r = "robot.urdf" then some ["</robot>"] else none

/-- The file system expected after running `addpendulum_urdf` on
`fsRobotW` with target path `out.urdf`. -/
def fsOutW : FS := fun r =>
  if r = "out.urdf" then
    some ((([] : List String) ++ [pendulum_urdf]) ++ ["</robot>\n"])
  else fsRobotW r

/-- A joint-state oracle for a 1-joint robot: the joint is measured at
position `0` on the first loop iteration and at position `1` (the desired
position) afterwards. -/
def measureW : ℕ → (Fin 1 → ℚ) × (Fin 1 → ℚ) :=
  fun step => if step = 0 then (fun _ => 0, fun _ => 0)
    else (fun _ => 1, fun _ => 0)

/-- Desired joint position `1` for the 1-joint fixture. -/
def qdW : Fin 1 → ℚ := fun _ => 1

/-- Desired joint velocity `0` for the 1-joint fixture. -/
def vdW : Fin 1 → ℚ := fun _ => 0

/-- The torque vector applied on the first iteration of the 1-joint
fixture: `clip(20 * (1 - 0) + 1 * (0 - 0), -50, 50) = 20`. -/
def tauW : Fin 1 → ℚ := fun _ => 20

/-! ## Helper lemmas -/

theorem genAux_length {σ : Type} (env : GymEnv σ) (acts : ℕ → Fin 2) :
    ∀ (n i : ℕ) (st : σ) (s : Obs), (genAux env acts n i st s).length = n := by
  intro n
  induction n with
  | zero => intro i st s; rfl
  | succ n ih =>
    intro i st s
    simp only [genAux]
    by_cases h : (env.step st (acts i).val).2.terminated
    · simp [h, ih]
    · simp [h, ih]

/-! ## The realistic environment (`EnvRealistic`) and its sampler -/

theorem stepIter_succ_right {σ : Type} (env : GymEnv σ) (acts : ℕ → Fin 2) :
    ∀ (j i : ℕ) (p : σ × Obs),
      stepIter env acts i (j + 1) p =
        stepOnce env (acts (i + j)) (stepIter env acts i j p) := by
  intro j
  induction j with
  | zero => intro i p; rfl
  | succ j ih =>
    intro i p
    show stepIter env acts (i + 1) (j + 1) (stepOnce env (acts i) p) = _
    rw [ih (i + 1)]
    have : i + 1 + j = i + (j + 1) := by omega
    rw [this]
    rfl

theorem genAux_getElem {σ : Type} (env : GymEnv σ) (acts : ℕ → Fin 2) :
    ∀ (n j i : ℕ) (st : σ) (s : Obs), j < n →
      (genAux env acts n i st s)[j]? =
        some (mkRow (stepIter env acts i j (st, s)).2 (acts (i + j)).val
          (env.step (stepIter env acts i j (st, s)).1 (acts (i + j)).val).2.obs) := by
  intro n
  induction n with
  | zero => intro j i st s hj; omega
  | succ n ih =>
    intro j i st s hj
    simp only [genAux]
    by_cases hterm : (env.step st (acts i).val).2.terminated
    · simp only [hterm, if_true]
      cases j with
      | zero => simp [stepIter]
      | succ j =>
        have hrec := ih j (i + 1) (env.reset (env.step st (acts i).val).1).1
          (env.reset (env.step st (acts i).val).1).2 (by omega)
        simp only [List.getElem?_cons_succ]
        rw [hrec]
        have hstep : stepIter env acts i (j + 1) (st, s) =
            stepIter env acts (i + 1) j
              ((env.reset (env.step st (acts i).val).1).1,
               (env.reset (env.step st (acts i).val).1).2) := by
          show stepIter env acts (i + 1) j (stepOnce env (acts i) (st, s)) = _
          simp [stepOnce, hterm]
        have hidx : i + (j + 1) = i + 1 + j := by omega
        rw [hstep, hidx]
    · rw [if_neg hterm]
      cases j with
      | zero => simp [stepIter]
      | succ j =>
        have hrec := ih j (i + 1) (env.step st (acts i).val).1
          (env.step st (acts i).val).2.obs (by omega)
        simp only [List.getElem?_cons_succ]
        rw [hrec]
        have hstep : stepIter env acts i (j + 1) (st, s) =
            stepIter env acts (i + 1) j
              ((env.step st (acts i).val).1, (env.step st (acts i).val).2.obs) := by
          show stepIter env acts (i + 1) j (stepOnce env (acts i) (st, s)) = _
          simp [stepOnce, hterm]
        have hidx : i + (j + 1) = i + 1 + j := by omega
        rw [hstep, hidx]

theorem dot5_sub (x β β' : Fin 5 → ℚ) :
    dot5 x β' - dot5 x β = dot5 x (fun j => β' j - β j) := by
  simp only [dot5]
  rw [← Finset.sum_sub_distrib]
  apply Finset.sum_congr rfl
  intro j _
  ring

theorem sum_residual_dot (β δ : Fin 5 → ℚ) :
    ∀ L : List ((Fin 5 → ℚ) × ℚ),
      (L.map (fun p => (p.2 - dot5 p.1 β) * dot5 p.1 δ)).sum =
        ∑ j : Fin 5,
          δ j * (L.map (fun p => p.1 j * (p.2 - dot5 p.1 β))).sum := by
  intro L
  induction L with
  | nil => simp
  | cons hd tl ih =>
    simp only [List.map_cons, List.sum_cons, ih, mul_add,
      Finset.sum_add_distrib]
    congr 1
    simp only [dot5, Finset.mul_sum]
    apply Finset.sum_congr rfl
    intro j _
    ring

theorem ssr_expand (β β' : Fin 5 → ℚ) :
    ∀ L : List ((Fin 5 → ℚ) × ℚ),
      (L.map (fun p => (p.2 - dot5 p.1 β') ^ 2)).sum =
        (L.map (fun p => (p.2 - dot5 p.1 β) ^ 2)).sum +
        (L.map (fun p => (dot5 p.1 β' - dot5 p.1 β) ^ 2)).sum -
        2 * (L.map (fun p =>
          (p.2 - dot5 p.1 β) * (dot5 p.1 β' - dot5 p.1 β))).sum := by
  intro L
  induction L with
  | nil => simp
  | cons hd tl ih =>
    simp only [List.map_cons, List.sum_cons]
    rw [ih]
    ring

/-- A coefficient vector satisfying the normal equations minimizes the
residual sum of squares. -/
theorem normalEqs_isLSMin (X : List (Fin 5 → ℚ)) (y : List ℚ)
    (β : Fin 5 → ℚ) (h : NormalEqs X y β) : IsLSMin X y β := by
  intro β'
  show ssr X y β ≤ ssr X y β'
  unfold ssr
  rw [ssr_expand β β' (X.zip y)]
  have hcross : ((X.zip y).map (fun p =>
      (p.2 - dot5 p.1 β) * (dot5 p.1 β' - dot5 p.1 β))).sum = 0 := by
    simp only [dot5_sub]
    rw [sum_residual_dot β (fun j => β' j - β j) (X.zip y)]
    have hz : ∀ j : Fin 5,
        (fun j => β' j - β j) j *
          ((X.zip y).map (fun p => p.1 j * (p.2 - dot5 p.1 β))).sum = 0 := by
      intro j
      rw [h j, mul_zero]
    simp only [hz, Finset.sum_const_zero]
  have hsq : 0 ≤ ((X.zip y).map
      (fun p => (dot5 p.1 β' - dot5 p.1 β) ^ 2)).sum := by
    apply List.sum_nonneg
    intro z hz
    rcases List.mem_map.mp hz with ⟨p, _, rfl⟩
    positivity
  rw [hcross]
  linarith

theorem np_clip_abs_le (z : ℚ) : |np_clip z (-50) 50| ≤ 50 := by
  rw [abs_le]
  unfold np_clip
  constructor
  · exact le_min (le_max_right z (-50)) (by norm_num)
  · exact min_le_right _ _

theorem ctdcAux_mem_bound {nq : ℕ}
    (measure : ℕ → (Fin nq → ℚ) × (Fin nq → ℚ))
    (q_desired v_desired Kp Kd : Fin nq → ℚ) (eps : ℚ) :
    ∀ (n step : ℕ) (tau : Fin nq → ℚ),
      tau ∈ ctdcAux measure q_desired v_desired Kp Kd eps n step →
      ∀ i : Fin nq, |tau i| ≤ 50 := by
  intro n
  induction n with
  | zero => intro step tau htau; simp [ctdcAux] at htau
  | succ n ih =>
    intro step tau htau i
    rw [ctdcAux] at htau
    by_cases hconv : (∀ i, |(measure step).1 i - q_desired i| < eps) ∧
        (∀ i, |(measure step).2 i - v_desired i| < eps)
    · rw [if_pos hconv] at htau
      simp at htau
    · rw [if_neg hconv] at htau
      rcases List.mem_cons.mp htau with heq | hmem
      · subst heq
        exact np_clip_abs_le _
      · exact ih (step + 1) tau hmem i

/-! ## Claim theorems -/

/-- C1: `generate_sample_of_system_dynamics` keeps sampling until the
fixed sample count is reached and returns exactly `nb_samples` transition
rows for every environment and every `nb_samples`.
`generate_sample_of_system_dynamics_realistic`, however, does not: for
every environment it raises `TypeError` already at `nb_samples = 1`,
because `EnvRealistic.reset` returns `None` (its body has no `return`
statement) and the first loop iteration subscripts that value — and its
`return` statement sits inside the `for` loop, so it could never collect
more than one row. -/
theorem dynamics_sampling_row_count :
    (∀ (σ : Type) (env : GymEnv σ) (acts : ℕ → Fin 2) (st0 : σ)
      (nb_samples : ℕ),
      (generate_sample_of_system_dynamics env acts st0 nb_samples).length =
        nb_samples) ∧
    (∀ (φ : Type) (P : Phys φ) (acts : ℕ → Fin 2) (st0 : RState φ),
      generate_sample_of_system_dynamics_realistic P acts st0 1 =
        Except.error PyError.typeError) := by
  constructor
  · intro σ env acts st0 nb_samples
    exact genAux_length env acts nb_samples 0 _ _
  · intro φ P acts st0
    rfl

/-- C2: in `generate_sample_of_system_dynamics`, row `j` records as
pre-step state the observation threaded through `j` loop iterations from
the initial reset, and row `j + 1` records the fresh reset observation
when step `j` terminated the episode, and the `next_s` returned by step
`j` otherwise.  (For `generate_sample_of_system_dynamics_realistic` the
corresponding statement is false: see `dynamics_sampling_row_count` —
execution raises before a second row can ever be recorded, and
`EnvRealistic.reset` yields no observation at all.) -/
theorem dynamics_sampling_restart_threading (σ : Type) (env : GymEnv σ)
    (acts : ℕ → Fin 2) (st0 : σ) (nb j : ℕ) (hj : j + 1 < nb) :
    ((generate_sample_of_system_dynamics env acts st0 nb)[j]?).map Row.pre =
      some (stepIter env acts 0 j (env.reset st0)).2 ∧
    ((generate_sample_of_system_dynamics env acts st0 nb)[j + 1]?).map
        Row.pre =
      some (if (env.step (stepIter env acts 0 j (env.reset st0)).1
            (acts j).val).2.terminated then
          (env.reset (env.step (stepIter env acts 0 j
            (env.reset st0)).1 (acts j).val).1).2
        else
          (env.step (stepIter env acts 0 j (env.reset st0)).1
            (acts j).val).2.obs) := by
  have hgen : generate_sample_of_system_dynamics env acts st0 nb =
      genAux env acts nb 0 (env.reset st0).1 (env.reset st0).2 := rfl
  constructor
  · rw [hgen, genAux_getElem env acts nb j 0 _ _ (by omega)]
    rfl
  · rw [hgen, genAux_getElem env acts nb (j + 1) 0 _ _ hj]
    have hshift : stepIter env acts 0 (j + 1)
        ((env.reset st0).1, (env.reset st0).2) =
        stepOnce env (acts j) (stepIter env acts 0 j (env.reset st0)) := by
      rw [stepIter_succ_right, Nat.zero_add]
    rw [hshift]
    unfold stepOnce
    by_cases hterm : (env.step (stepIter env acts 0 j (env.reset st0)).1
        (acts j).val).2.terminated
    · rw [if_pos hterm, if_pos hterm]
      rfl
    · rw [if_neg hterm, if_neg hterm]
      rfl

theorem dynamics_sampling_restart_threading_witness :
    ((generate_sample_of_system_dynamics envW actsW 0 2)[1]?).map Row.pre =
      some { x := 0, x_dot := 0, theta := 0, theta_dot := 0 } := by
  have h := dynamics_sampling_restart_threading ℕ envW actsW 0 2 0
    (by decide)
  rw [h.2]
  decide

/-- C3: the matrices passed to the discrete LQR solver, and therefore the
gain `K` it returns, are assembled from the hand-written constants only:
two runs whose collected samples and fitted regression coefficients
differ arbitrarily pass identical matrices to `dlqr` and obtain identical
gains. -/
theorem controller_gain_data_independent :
    ∀ (dlqr : DlqrSolver) (samples1 samples2 : List Row)
      (fits1 fits2 : Outcome → (Fin 5 → ℚ)),
      lqrInput samples1 fits1 = lqrInput samples2 fits2 ∧
      controllerGain dlqr samples1 fits1 = controllerGain dlqr samples2 fits2 :=
  fun _ _ _ _ _ => ⟨rfl, rfl⟩

/-- C4: `EnvRealistic.step` returns `dead = True` exactly when the
post-step pendulum angle exceeds `pi/16` in absolute value, returns
`truncated = True` exactly when the incremented step counter equals
`TIME_HORIZON = 1000`, increments the counter by one on each call, and no
other condition sets either flag. -/
theorem env_realistic_step_termination (φ : Type) (P : Phys φ)
    (st : RState φ) (action : ℤ) :
    ((EnvRealistic.step P st action).2.2.1 = true ↔
      |(EnvRealistic.step P st action).2.1.theta| > npPi / 16) ∧
    ((EnvRealistic.step P st action).2.2.2 = true ↔
      st.2 + 1 = TIME_HORIZON) ∧
    (EnvRealistic.step P st action).1.2 = st.2 + 1 ∧
    TIME_HORIZON = 1000 :=
  ⟨by simp [EnvRealistic.step], by simp [EnvRealistic.step], rfl, rfl⟩

/-- C5: a collected row enters the regression data exactly when its
recorded pre-step angle satisfies `|theta| < 0.05`, and the fitted
coefficients are a function of the filtered rows alone — no row outside
the filter influences any coefficient. -/
theorem small_angle_filter_exact :
    (∀ (samples : List Row) (r : Row),
      r ∈ small_angle_samples samples ↔ r ∈ samples ∧ |r.theta| < 0.05) ∧
    (∀ (ols : OlsSolver) (samples1 samples2 : List Row) (o : Outcome),
      small_angle_samples samples1 = small_angle_samples samples2 →
      fitParams ols samples1 o = fitParams ols samples2 o) := by
  constructor
  · intro samples r
    simp [small_angle_samples, List.mem_filter]
  · intro ols samples1 samples2 o h
    unfold fitParams predictors outcomeColumn
    rw [h]

theorem small_angle_filter_exact_witness :
    fitParams olsZero [rowFarW] Outcome.evolution_x =
      fitParams olsZero [] Outcome.evolution_x :=
  small_angle_filter_exact.2 olsZero [rowFarW] [] Outcome.evolution_x
    (by
      show small_angle_samples [rowFarW] = small_angle_samples []
      simp only [small_angle_samples, List.filter, rowFarW]
      norm_num)

/-- C6: the fitting loop runs one separate OLS per output over the same
five predictors.  For any solver whose coefficient vectors satisfy the
normal equations (the defining property of ordinary least squares), each
output's fitted vector minimizes the residual sum of squares for that
output alone; and the fit of an output is a function of the shared
predictor columns and that output's response column only — changing any
other output's data leaves it untouched. -/
theorem per_output_ols_fit (ols : OlsSolver) (samples : List Row)
    (h : ∀ y : List ℚ,
      NormalEqs (predictors samples) y (ols (predictors samples) y)) :
    (∀ o : Outcome, IsLSMin (predictors samples) (outcomeColumn o samples)
      (fitParams ols samples o)) ∧
    (∀ (samples2 : List Row) (o : Outcome),
      predictors samples2 = predictors samples →
      outcomeColumn o samples2 = outcomeColumn o samples →
      fitParams ols samples2 o = fitParams ols samples o) := by
  constructor
  · intro o
    exact normalEqs_isLSMin _ _ _ (h (outcomeColumn o samples))
  · intro samples2 o h1 h2
    unfold fitParams
    rw [h1, h2]

theorem per_output_ols_fit_witness :
    IsLSMin (predictors []) (outcomeColumn Outcome.evolution_x [])
      (fitParams olsZero [] Outcome.evolution_x) :=
  (per_output_ols_fit olsZero [] (fun _ _ => rfl)).1 Outcome.evolution_x

/-- C7: the hand-assembled linear-quadratic problem is well-posed: the
cost matrices are exactly `diag(125, 50, 1200, 25)` and `diag(1.5)` and
both are positive semi-definite, and the `dlqr` call consumes the typed
matrices `A : 4×4`, `B : 4×1`, `Q : 4×4`, `R : 1×1` and produces the
`1×4` gain `K` (the dimensions are enforced by the types of `A`, `B`,
`Q`, `R` and `DlqrSolver`). -/
theorem lqr_problem_invariants :
    Q = Matrix.diagonal ![125, 50, 1200, 25] ∧
    R = Matrix.diagonal ![1.5] ∧
    Q.PosSemidef ∧ R.PosSemidef ∧
    (∀ (dlqr : DlqrSolver) (samples : List Row)
      (fits : Outcome → (Fin 5 → ℚ)),
      controllerGain dlqr samples fits = dlqr A B Q R) := by
  refine ⟨rfl, rfl, ?_, ?_, fun _ _ _ => rfl⟩
  · exact Matrix.PosSemidef.diagonal (by
      intro i
      fin_cases i <;> norm_num)
  · exact Matrix.PosSemidef.diagonal (by
      intro i
      fin_cases i <;> norm_num)

/-- C8: `addpendulum_urdf` has no error recovery: every exception escapes
to the caller (the `Except` result), and on an input file that is empty
or consists only of blank lines the inspection of the file's last line
raises `IndexError` before any output file is written — the returned
error leaves the file system untouched. -/
theorem addpendulum_urdf_empty_input_raises (fs : FS) (p q : String)
    (lines : List String) (hread : fs p = some lines)
    (hblank : ∀ l ∈ lines, pyStrip l = "") :
    addpendulum_urdf fs p q = Except.error PyError.indexError := by
  have h1 : dropTrailingBlanks lines = [] := by
    unfold dropTrailingBlanks
    have h2 : lines.reverse.dropWhile (fun s => decide (pyStrip s = "")) =
        [] := by
      rw [List.dropWhile_eq_nil_iff]
      intro x hx
      simp [hblank x (List.mem_reverse.mp hx)]
    rw [h2]
    rfl
  simp only [addpendulum_urdf, hread, h1]
  rfl

theorem addpendulum_urdf_empty_input_raises_witness :
    addpendulum_urdf fsEmptyW "robot.urdf" "out.urdf" =
      Except.error PyError.indexError :=
  addpendulum_urdf_empty_input_raises fsEmptyW "robot.urdf" "out.urdf" []
    (by simp [fsEmptyW]) (by simp)

/-- C9: every per-joint force value passed to the torque-control call by
`control_to_desired_configuration` satisfies `|tau_i| <= 50`, for all
desired configurations, desired velocities, measured joint states and
loop iterations, because the PD output is clipped to `[-50, 50]` before
being applied. -/
theorem torque_commands_bounded (nq : ℕ)
    (measure : ℕ → (Fin nq → ℚ) × (Fin nq → ℚ))
    (q_desired v_desired : Fin nq → ℚ) (eps : ℚ) (tau : Fin nq → ℚ)
    (htau : tau ∈ control_to_desired_configuration measure q_desired
      v_desired eps) (i : Fin nq) :
    |tau i| ≤ 50 :=
  ctdcAux_mem_bound measure q_desired v_desired _ _ eps 1000 0 tau htau i

theorem torque_commands_bounded_witness :
    |tauW ⟨0, Nat.zero_lt_one⟩| ≤ 50 := by
  refine torque_commands_bounded 1 measureW qdW vdW (1 / 1000000) tauW ?_
    ⟨0, Nat.zero_lt_one⟩
  unfold control_to_desired_configuration
  rw [show (1000 : ℕ) = 999 + 1 from rfl, ctdcAux]
  rw [if_neg ?notconv]
  case notconv =>
    rintro ⟨h1, -⟩
    have h0 := h1 ⟨0, Nat.zero_lt_one⟩
    simp only [measureW, qdW] at h0
    norm_num at h0
  refine List.mem_cons.mpr (Or.inl ?_)
  funext i
  fin_cases i
  simp only [tauW, measureW, qdW, vdW, pd_control, np_clip]
  norm_num

/-- C10: `addpendulum_urdf` writes only to `save_to_path`: when the call
succeeds and the two paths differ, the source file's content is unchanged
(it is opened for reading only) and every path other than `save_to_path`
maps to exactly the content it had before. -/
theorem addpendulum_urdf_writes_only_target (fs : FS) (p q : String)
    (fs2 : FS) (hpq : p ≠ q)
    (hok : addpendulum_urdf fs p q = Except.ok fs2) :
    fs2 p = fs p ∧ ∀ r : String, r ≠ q → fs2 r = fs r := by
  cases hfs : fs p with
  | none =>
    simp only [addpendulum_urdf, hfs] at hok
    exact Except.noConfusion hok
  | some lines =>
    simp only [addpendulum_urdf, hfs] at hok
    cases hlast : (dropTrailingBlanks lines).getLast? with
    | none =>
      rw [hlast] at hok
      exact Except.noConfusion hok
    | some last =>
      rw [hlast] at hok
      simp only [Except.ok.injEq] at hok
      subst hok
      refine ⟨?_, ?_⟩
      · simp only [if_neg hpq, hfs]
      · intro r hr
        simp only [if_neg hr]

theorem addpendulum_urdf_writes_only_target_witness :
    fsOutW "robot.urdf" = fsRobotW "robot.urdf" ∧
    fsOutW "x.urdf" = fsRobotW "x.urdf" := by
  have h := addpendulum_urdf_writes_only_target fsRobotW "robot.urdf"
    "out.urdf" fsOutW (by decide) rfl
  exact ⟨h.1, h.2 "x.urdf" (by decide)⟩

end PendulumSwingup
